import Mathlib

/-
Shallow embedding of the Spendr Express server (server/server.js) for
verification of its natural-language specification.

Modelling conventions:
  - JS numbers are rationals; calendar dates are rationals on a day
    timeline, so that the source expression now - 90 days is now - 90.
  - Each upstream HTTP call made through axios is modelled by its outcome:
    rejected (timeout, connection failure, non-2xx status - axios rejects
    in all three cases) or fulfilled with a 2xx body.  Reading the expected
    field from a fulfilled body is modelled by FieldGet: the read throws a
    TypeError when the body is null or undefined, yields JS undefined when
    the field is absent, and yields the typed value otherwise.
  - res.json drops object entries whose value is undefined, exactly as
    JSON.stringify does; a field whose extracted value may be undefined is
    therefore an Option in the body record, none meaning the key is absent
    from the serialized response.
  - Sequencing of awaits is translated to sequential composition; the
    order in which the three promises passed to Promise.allSettled settle
    is an explicit parameter (settleOrder).  Each run also produces an
    event trace recording, in program order, when requests are issued and
    when branches settle, used for the temporal and concurrency claims.
-/

namespace Spendr

/-- JS Math.round on a rational: rounds half toward positive infinity. -/
def jsRound (q : ℚ) : ℤ := ⌊q + 1/2⌋

/-- Rounding half away from zero, as the spec describes the metric rounding. -/
def roundHalfAwayFromZero (q : ℚ) : ℤ :=
  if 0 ≤ q then ⌊q + 1/2⌋ else -⌊-q + 1/2⌋

/-- Rounding half toward zero for nonnegative arguments. -/
def roundHalfTowardZeroNonneg (q : ℚ) : ℤ := ⌈q - 1/2⌉

/-- The two metric functions in the source only read t.date and t.amount
from each row (they are applied both to raw DB rows and to normalized
records); this is the duck-typed row they consume. -/
structure TxRow where
  date : ℚ
  amount : ℚ
  deriving DecidableEq, Repr

/-- The source filter new Date(t.date) >= from, where from is now minus 90
days.  Note there is no upper bound on the date. -/
def inWindow90 (now : ℚ) (t : TxRow) : Bool := decide (now - 90 ≤ t.date)

/-- Sum of the positive amounts the source filter keeps (date on or after
now - 90, amount strictly positive). -/
def codePosSum (now : ℚ) (tx : List TxRow) : ℚ :=
  ((tx.filter (fun t => inWindow90 now t && decide (0 < t.amount))).map
    (fun t => t.amount)).sum

/-- Sum of the negative amounts the source filter keeps (date on or after
now - 90, amount strictly negative). -/
def codeNegSum (now : ℚ) (tx : List TxRow) : ℚ :=
  ((tx.filter (fun t => inWindow90 now t && decide (t.amount < 0))).map
    (fun t => t.amount)).sum

/-- monthlyIncomeArray from server.js: Math.round(pos / 3) where pos is the
sum of positive amounts dated on or after now - 90 days. -/
def monthlyIncomeArray (now : ℚ) (tx : List TxRow) : ℤ :=
  jsRound (codePosSum now tx / 3)

/-- monthlyBaselineSpendArray from server.js:
Math.abs(Math.round(neg / 3)) where neg is the sum of negative amounts
dated on or after now - 90 days. -/
def monthlyBaselineSpendArray (now : ℚ) (tx : List TxRow) : ℤ :=
  |jsRound (codeNegSum now tx / 3)|

/-- Sum of positive amounts inside the window the claim describes
(trailing 90-day window ending now, so bounded above by now). -/
def claimPosSum (now : ℚ) (tx : List TxRow) : ℚ :=
  ((tx.filter (fun t =>
      decide (now - 90 ≤ t.date) && decide (t.date ≤ now) && decide (0 < t.amount))).map
    (fun t => t.amount)).sum

/-- Sum of negative amounts inside the window the claim describes. -/
def claimNegSum (now : ℚ) (tx : List TxRow) : ℚ :=
  ((tx.filter (fun t =>
      decide (now - 90 ≤ t.date) && decide (t.date ≤ now) && decide (t.amount < 0))).map
    (fun t => t.amount)).sum

/-- Modelled from the claim wording for C4: monthly income as
round-half-away-from-zero of the windowed positive sum over 3. -/
def claimMonthlyIncome (now : ℚ) (tx : List TxRow) : ℤ :=
  roundHalfAwayFromZero (claimPosSum now tx / 3)

/-- Modelled from the claim wording for C4: monthly baseline spend as
round-half-away-from-zero of the absolute windowed negative sum over 3. -/
def claimMonthlyBaseline (now : ℚ) (tx : List TxRow) : ℤ :=
  roundHalfAwayFromZero (|claimNegSum now tx| / 3)

/-- A persisted transaction row as the routes read it (Prisma row or a
fixture record).  merchant, category and account type may be absent; the
normalization step substitutes defaults. -/
structure Tx where
  date : ℚ
  amount : ℚ
  merchant : Option String
  category : Option String
  account_type : Option String
  isRecurring : Bool
  deriving DecidableEq, Repr

/-- A transaction normalized for the AI service (step 2 of the dashboard
route): merchant defaults to Unknown, category to other, account type to
checking. -/
structure NormTx where
  date : ℚ
  amount : ℚ
  merchant : String
  category : String
  account_type : String
  is_recurring : Bool
  deriving DecidableEq, Repr

/-- The normalization map in the dashboard route. -/
def normalize (t : Tx) : NormTx :=
  { date := t.date
    amount := t.amount
    merchant := t.merchant.getD "Unknown"
    category := t.category.getD "other"
    account_type := t.account_type.getD "checking"
    is_recurring := t.isRecurring }

/-- Duck-typed projection used when a metric function is applied to a raw
transaction row. -/
def Tx.row (t : Tx) : TxRow := ⟨t.date, t.amount⟩

/-- Duck-typed projection used when a metric function is applied to a
normalized record. -/
def NormTx.row (t : NormTx) : TxRow := ⟨t.date, t.amount⟩

/-- Reading one expected field out of a fulfilled 2xx body: the body may be
null or undefined (property access throws), may lack the field (the read
yields JS undefined), or carries the typed value. -/
inductive FieldGet (α : Type) where
  | throws
  | missing
  | val (a : α)
  deriving DecidableEq, Repr

/-- Outcome of one axios call: rejected covers timeout, connection failure
and non-2xx status (axios rejects the promise in all three cases);
fulfilled carries the field read from the 2xx body. -/
inductive POutcome (α : Type) where
  | rejected
  | fulfilled (f : FieldGet α)
  deriving DecidableEq, Repr

/-- An outcome is a clean settlement: either an outright rejection or a 2xx
body carrying the expected field. -/
def intact {α : Type} : POutcome α → Bool
  | .rejected => true
  | .fulfilled (.val _) => true
  | _ => false

/-- One element of the subscriptions list of the subscriptions provider. -/
structure Subscription where
  merchant : String
  avg_amount : ℚ
  avg_cadence_days : ℚ
  probable : Bool
  deriving DecidableEq, Repr

/-- One element of the spikes list of the spend-insights provider. -/
structure Spike where
  category : String
  zscore : ℚ
  latest_total : ℚ
  avg_prior : ℚ
  deriving DecidableEq, Repr

/-- One element of the movers list of the movers provider. -/
structure Mover where
  category : String
  delta : ℚ
  latest_total : ℚ
  avg_prior : ℚ
  deriving DecidableEq, Repr

/-- The guardrails object of the credit repayment provider. -/
structure Guardrails where
  utilization : ℚ
  alerts : List String
  deriving DecidableEq, Repr

/-- The hardcoded guardrails fallback the dashboard route starts from. -/
def fallbackGuardrails : Guardrails :=
  { utilization := 39.0
    alerts := ["Demo default: pay a small amount before statement close to reduce utilization."] }

/-- The credit Account row the dashboard route reads: balance is NOT NULL
(default 0) in the schema, apr and creditLimit are nullable. -/
structure Account where
  balance : ℚ
  apr : Option ℚ
  creditLimit : Option ℚ
  deriving DecidableEq, Repr

/-- Request payload of the credit repayment call in the dashboard route. -/
structure CreditPayload where
  balance : ℚ
  apr_annual : ℚ
  min_payment : ℚ
  extra_payment : ℚ
  credit_limit : ℚ
  deriving DecidableEq, Repr

/-- Builds the credit repayment payload from the looked-up credit account:
each stored value falls back individually (balance to 780, APR to 23.99,
limit to 2000) when absent or not strictly positive; a missing account row
uses all three defaults. -/
def mkCreditPayload : Option Account → CreditPayload
  | some a =>
      { balance := if 0 < a.balance then a.balance else 780
        apr_annual := match a.apr with
          | some r => if 0 < r then r else 23.99
          | none => 23.99
        min_payment := 35
        extra_payment := 0
        credit_limit := match a.creditLimit with
          | some c => if 0 < c then c else 2000
          | none => 2000 }
  | none =>
      { balance := 780, apr_annual := 23.99, min_payment := 35
        extra_payment := 0, credit_limit := 2000 }

/-- Metrics object sent to the narrative provider. -/
structure NarrativeMetrics where
  income : ℤ
  baseline : ℤ
  credit_utilization : ℚ
  subscriptions_count : ℕ
  top_spike_category : Option String
  untouchable_pct : ℚ
  deriving DecidableEq, Repr

/-- The three providers joined by Promise.allSettled in the dashboard. -/
inductive Branch3 where
  | subs
  | spikes
  | movers
  deriving DecidableEq, Repr

/-- Events recorded along a dashboard run, in program order. -/
inductive DashEvent where
  | issueSubs
  | issueSpikes
  | issueMovers
  | settleSubs
  | settleSpikes
  | settleMovers
  | readCreditAccount
  | issueCredit (payload : CreditPayload)
  | settleCredit
  | issueNarrative (metrics : NarrativeMetrics)
  | settleNarrative
  deriving DecidableEq, Repr

/-- Settlement event of one of the three parallel branches. -/
def Branch3.settleEvent : Branch3 → DashEvent
  | .subs => .settleSubs
  | .spikes => .settleSpikes
  | .movers => .settleMovers

/-- The composite dashboard body handed to res.json.  An Option field set
to none models a JS undefined value, whose key JSON serialization drops. -/
structure SummaryBody where
  income : ℤ
  baseline : ℤ
  credit : Option Guardrails
  subscriptions : Option (List Subscription)
  spikes : Option (List Spike)
  movers : Option (List Mover)
  weekly_narrative : String
  deriving DecidableEq, Repr

/-- Keys actually present in the serialized composite response, in the
object-literal order of the source. -/
def SummaryBody.presentKeys (b : SummaryBody) : List String :=
  ["income", "baseline"]
    ++ (if b.credit.isSome then ["credit"] else [])
    ++ (if b.subscriptions.isSome then ["subscriptions"] else [])
    ++ (if b.spikes.isSome then ["spikes"] else [])
    ++ (if b.movers.isSome then ["movers"] else [])
    ++ ["weekly_narrative"]

/-- The seven documented keys of the composite response. -/
def sevenKeys : List String :=
  ["income", "baseline", "credit", "subscriptions", "spikes", "movers", "weekly_narrative"]

/-- HTTP-level result of the dashboard route: res.json on success, or the
500 summary_failed payload from the outer catch. -/
inductive SummaryResult where
  | ok (body : SummaryBody)
  | serverError (error : String)
  deriving DecidableEq, Repr

/-- Whether a summary result is the 500 failure. -/
def SummaryResult.isServerError : SummaryResult → Bool
  | .ok _ => false
  | .serverError _ => true

/-- Whether a summary result is a 200 whose body serializes all seven
documented keys. -/
def SummaryResult.allSevenKeys : SummaryResult → Bool
  | .ok b => decide (b.presentKeys = sevenKeys)
  | .serverError _ => false

/-- A dashboard run: the HTTP result plus the recorded event trace. -/
structure DashRun where
  response : SummaryResult
  trace : List DashEvent
  deriving DecidableEq, Repr

/-- Reduction of one of the three list branches after Promise.allSettled:
a rejected call reduces to the empty list; a fulfilled call reads the
expected field from the body - a null body makes that read throw (escaping
to the outer catch), an absent field leaves the variable undefined. -/
def reduceListBranch {α : Type} : POutcome (List α) → Except Unit (Option (List α))
  | .rejected => .ok (some [])
  | .fulfilled .throws => .error ()
  | .fulfilled .missing => .ok none
  | .fulfilled (.val v) => .ok (some v)

/-- The credit guardrails branch (step 5): starts from the hardcoded
fallback, reads the credit account, posts the repayment payload and takes
guardrails from the body; every throw inside the branch (account read
failure, rejected call, null body) is caught locally and keeps the
fallback.  A 2xx body without a guardrails field leaves credit undefined
without throwing. -/
def creditBranch (acctRes : Except Unit (Option Account))
    (creditO : POutcome Guardrails) : Option Guardrails × List DashEvent :=
  match acctRes with
  | .error _ => (some fallbackGuardrails, [.readCreditAccount])
  | .ok acct =>
    let payload := mkCreditPayload acct
    let evs : List DashEvent := [.readCreditAccount, .issueCredit payload, .settleCredit]
    match creditO with
    | .rejected => (some fallbackGuardrails, evs)
    | .fulfilled .throws => (some fallbackGuardrails, evs)
    | .fulfilled .missing => (none, evs)
    | .fulfilled (.val g) => (some g, evs)

/-- The expression spikes[0]?.category || null of the source: the first
spike if any, with an empty-string category collapsed to null by the
falsy-or. -/
def topSpikeCategory (sp : List Spike) : Option String :=
  match sp.head? with
  | some s => if s.category = "" then none else some s.category
  | none => none

/-- Building the narrative metrics object (step 6).  Reading
credit.utilization, subscriptions.length or spikes[0] throws when the
corresponding reduced variable is undefined; the throw is caught by the
narrative try block. -/
def buildMetrics (income baseline : ℤ) (credit : Option Guardrails)
    (subs : Option (List Subscription)) (spikes : Option (List Spike)) :
    Except Unit NarrativeMetrics :=
  match credit, subs, spikes with
  | some c, some su, some sp =>
      .ok { income := income
            baseline := baseline
            credit_utilization := c.utilization
            subscriptions_count := su.length
            top_spike_category := topSpikeCategory sp
            untouchable_pct := 0.2 }
  | _, _, _ => .error ()

/-- The narrative branch (step 6): weekly_narrative starts as the fixed
fallback; the call is only issued if the metrics object was built; the
body field replaces the fallback only when it is a truthy string; every
throw in the block is caught and keeps the fallback. -/
def narrativeBranch (income baseline : ℤ) (credit : Option Guardrails)
    (subs : Option (List Subscription)) (spikes : Option (List Spike))
    (narrO : POutcome String) : String × List DashEvent :=
  match buildMetrics income baseline credit subs spikes with
  | .error _ => ("Stable week.", [])
  | .ok m =>
    let evs : List DashEvent := [.issueNarrative m, .settleNarrative]
    match narrO with
    | .rejected => ("Stable week.", evs)
    | .fulfilled .throws => ("Stable week.", evs)
    | .fulfilled .missing => ("Stable week.", evs)
    | .fulfilled (.val s) => (if s = "" then "Stable week." else s, evs)

/-- Issue events of the three parallel calls followed by their settle
events in the order the promises settled. -/
def fanoutEvents (settleOrder : List Branch3) : List DashEvent :=
  [.issueSubs, .issueSpikes, .issueMovers] ++ settleOrder.map Branch3.settleEvent

/-- The transaction array the dashboard route works on: DB rows when any
exist, the static fixture set otherwise. -/
def txSource (fixture txns : List Tx) : List Tx :=
  if txns.isEmpty then fixture else txns

/-- The date/amount rows of the normalized transaction array, which is
what the two metric functions read (the normalized array is also the
request payload of the three parallel provider calls). -/
def dashRows (fixture txns : List Tx) : List TxRow :=
  ((txSource fixture txns).map normalize).map NormTx.row

/-- GET /dashboard/summary.  Inputs are the ledger read result, the static
fixture set, the outcome of each of the five provider calls, the credit
account lookup result and the settle order of the three parallel calls.
A ledger read failure hits the outer catch before any call is issued.  The
three parallel calls are issued together and awaited as a group via
Promise.allSettled; their reduced values are read afterwards, where a
null 2xx body throws to the outer catch.  The credit branch and then the
narrative branch run sequentially after the group, each absorbing its own
failures. -/
def getDashboardSummary (now : ℚ) (fixture : List Tx)
    (ledger : Except Unit (List Tx))
    (subsO : POutcome (List Subscription))
    (spikesO : POutcome (List Spike))
    (moversO : POutcome (List Mover))
    (acctRes : Except Unit (Option Account))
    (creditO : POutcome Guardrails)
    (narrO : POutcome String)
    (settleOrder : List Branch3) : DashRun :=
  match ledger with
  | .error _ => { response := .serverError "summary_failed", trace := [] }
  | .ok txns =>
    let income := monthlyIncomeArray now (dashRows fixture txns)
    let baseline := monthlyBaselineSpendArray now (dashRows fixture txns)
    let fanout := fanoutEvents settleOrder
    match reduceListBranch subsO, reduceListBranch spikesO, reduceListBranch moversO with
    | .ok subs, .ok spikes, .ok movers =>
      let creditR := creditBranch acctRes creditO
      let narrR := narrativeBranch income baseline creditR.1 subs spikes narrO
      { response := .ok
          { income := income
            baseline := baseline
            credit := creditR.1
            subscriptions := subs
            spikes := spikes
            movers := movers
            weekly_narrative := narrR.1 }
        trace := fanout ++ creditR.2 ++ narrR.2 }
    | _, _, _ => { response := .serverError "summary_failed", trace := fanout }

/-- One repayment plan inside the simulation object of the credit
repayment provider. -/
structure Plan where
  months : ℚ
  total_interest : ℚ
  deriving DecidableEq, Repr

/-- The simulation object of the credit repayment provider. -/
structure Simulation where
  min_only : Plan
  min_plus_extra : Plan
  deriving DecidableEq, Repr

/-- A fulfilled 2xx body of the credit repayment call as POST
/credit/simulate consumes it: either top-level field may be absent.  A
null body (spreads to no fields, every nested read throws) is the case
with both fields none. -/
structure SimData where
  simulation : Option Simulation
  guardrails : Option Guardrails
  deriving DecidableEq, Repr

/-- Outcome of the credit repayment call made by POST /credit/simulate. -/
inductive SimOutcome where
  | rejected
  | fulfilled (data : SimData)
  deriving DecidableEq, Repr

/-- Request payload of the credit explanation call. -/
structure ExplainPayload where
  balance : ℚ
  apr_annual : ℚ
  min_months : ℚ
  min_interest : ℚ
  plus_months : ℚ
  plus_interest : ℚ
  utilization : ℚ
  deriving DecidableEq, Repr

/-- A JS field value distinguishing null from undefined: jnull serializes
as null, jundef drops the key. -/
inductive JFld (α : Type) where
  | jnull
  | jundef
  | jval (a : α)
  deriving DecidableEq, Repr

/-- Body of the POST /credit/simulate success response: the spread of the
simulation body plus the explanation field (null when the explainer was
skipped or failed, absent when its body lacked the field). -/
structure CreditSimBody where
  simulation : Option Simulation
  guardrails : Option Guardrails
  explanation : JFld String
  deriving DecidableEq, Repr

/-- HTTP-level result of POST /credit/simulate. -/
inductive CreditSimResult where
  | ok (body : CreditSimBody)
  | serverError (error : String)
  deriving DecidableEq, Repr

/-- A run of POST /credit/simulate: the result plus the payload of the
explanation call if one was issued. -/
structure CreditSimRun where
  response : CreditSimResult
  explainCalled : Option ExplainPayload
  deriving DecidableEq, Repr

/-- POST /credit/simulate.  A rejected simulation call hits the outer
catch: 500 with the fixed error string, and the explainer is never
reached.  On a fulfilled simulation, the explanation payload is derived
inside an inner try: if any nested field of the body is absent the
derivation throws before the call is issued, and any failure in the inner
block leaves explanation null; a fulfilled explainer body missing its
field leaves explanation undefined. -/
def simulateAndExplainCredit (balance apr : ℚ) (simO : SimOutcome)
    (explainO : POutcome String) : CreditSimRun :=
  match simO with
  | .rejected =>
      { response := .serverError "Credit simulation failed", explainCalled := none }
  | .fulfilled sd =>
    match sd.simulation, sd.guardrails with
    | some sim, some g =>
      let payload : ExplainPayload :=
        { balance := balance
          apr_annual := apr
          min_months := sim.min_only.months
          min_interest := sim.min_only.total_interest
          plus_months := sim.min_plus_extra.months
          plus_interest := sim.min_plus_extra.total_interest
          utilization := g.utilization }
      let expl : JFld String :=
        match explainO with
        | .rejected => .jnull
        | .fulfilled .throws => .jnull
        | .fulfilled .missing => .jundef
        | .fulfilled (.val s) => .jval s
      { response := .ok
          { simulation := some sim, guardrails := some g, explanation := expl }
        explainCalled := some payload }
    | _, _ =>
      { response := .ok
          { simulation := sd.simulation, guardrails := sd.guardrails
            explanation := .jnull }
        explainCalled := none }

/-- One suggestion of the insurance nudge provider. -/
structure Suggestion where
  type : String
  est_cost_per_month : Option ℚ
  est_cost_per_trip : Option ℚ
  why : String
  deriving DecidableEq, Repr

/-- HTTP-level result of POST /insurance/assess. -/
inductive InsuranceResult where
  | ok (suggestions : List Suggestion)
  | failed
  deriving DecidableEq, Repr

/-- Some upstream problem occurred: the call was rejected or the 2xx body
did not carry a suggestions array. -/
def upstreamProblem : POutcome (List Suggestion) → Bool
  | .fulfilled (.val _) => false
  | _ => true

/-- POST /insurance/assess, first registration (server.js line 274).  The
nudge call runs inside a try whose catch answers 200 with an empty list;
on a fulfilled body the suggestions field is read through optional
chaining and an Array.isArray check, so a null body or an absent or
non-array field also reduces to the empty list.  A second registration of
the same route exists at line 442 and would pass errors through, but
Express dispatches each request to the first matching route, so it is
unreachable. -/
def assessInsurance : POutcome (List Suggestion) → InsuranceResult
  | .rejected => .ok []
  | .fulfilled .throws => .ok []
  | .fulfilled .missing => .ok []
  | .fulfilled (.val l) => .ok l

/-- Body of a fulfilled untouchable forecast call, passed through to the
caller unchanged. -/
structure ForecastData where
  suggested_pct : ℚ
  series : List (ℕ × ℚ)
  deriving DecidableEq, Repr

/-- Request payload of the untouchable forecast call.  untouchable_pct is
the percent taken from the request body; when the caller omitted it the
field is undefined and JSON serialization drops it (none). -/
structure ForecastPayload where
  monthly_income : ℤ
  monthly_baseline_spend : ℤ
  untouchable_pct : Option ℚ
  starting_savings : ℚ
  months : ℕ
  deriving DecidableEq, Repr

/-- Result of POST /budgets/untouchable: the forecast body on success, or
failed when an uncaught rejection escapes the handler (the route has no
try/catch, so no JSON response is produced). -/
inductive UntouchableResult where
  | ok (data : ForecastData)
  | failed
  deriving DecidableEq, Repr

/-- A run of POST /budgets/untouchable: result, the forecast payload if
the call was issued, whether the budget upsert was reached, and the
persisted untouchablePct after the run. -/
structure UntouchableRun where
  response : UntouchableResult
  forecastCalled : Option ForecastPayload
  upsertReached : Bool
  budget : Option ℚ
  deriving DecidableEq, Repr

/-- The prisma budget upsert with untouchablePct set to percent.  Prisma
drops undefined fields, so with percent absent the update of an existing
row is a no-op, while the create of a missing row lacks the required
untouchablePct column (NOT NULL, no default in the schema) and throws. -/
def budgetUpsert (budget0 percent : Option ℚ) : Except Unit (Option ℚ) :=
  match percent with
  | some p => .ok (some p)
  | none =>
    match budget0 with
    | some b => .ok (some b)
    | none => .error ()

/-- POST /budgets/untouchable.  No validation is performed on the request
body.  The ledger is read (an uncaught failure aborts the run), metrics
are computed on the raw transaction array, the forecast provider is
called, and only after a fulfilled forecast call is the budget upserted
and the forecast body returned. -/
def forecastUntouchable (now : ℚ) (fixture : List Tx) (budget0 : Option ℚ)
    (ledger : Except Unit (List Tx)) (percent : Option ℚ)
    (starting_savings : Option ℚ)
    (forecastO : Except Unit ForecastData) : UntouchableRun :=
  match ledger with
  | .error _ =>
      { response := .failed, forecastCalled := none
        upsertReached := false, budget := budget0 }
  | .ok txns =>
    let txArray := txSource fixture txns
    let income := monthlyIncomeArray now (txArray.map Tx.row)
    let baseline := monthlyBaselineSpendArray now (txArray.map Tx.row)
    let payload : ForecastPayload :=
      { monthly_income := income
        monthly_baseline_spend := baseline
        untouchable_pct := percent
        starting_savings := starting_savings.getD 350
        months := 6 }
    match forecastO with
    | .error _ =>
        { response := .failed, forecastCalled := some payload
          upsertReached := false, budget := budget0 }
    | .ok data =>
      match budgetUpsert budget0 percent with
      | .error _ =>
          { response := .failed, forecastCalled := some payload
            upsertReached := true, budget := budget0 }
      | .ok b2 =>
          { response := .ok data, forecastCalled := some payload
            upsertReached := true, budget := b2 }

/-- Recognizes the narrative-issue event. -/
def isIssueNarrativeEvent : DashEvent → Bool
  | .issueNarrative _ => true
  | _ => false

/-- Recognizes a settle event of the subscriptions, spikes, movers or
credit-guardrails branches. -/
def isUpstreamSettleEvent : DashEvent → Bool
  | .settleSubs => true
  | .settleSpikes => true
  | .settleMovers => true
  | .settleCredit => true
  | _ => false

/-- Recognizes an issue event of any of the four fan-out provider calls. -/
def isFanIssueEvent : DashEvent → Bool
  | .issueSubs => true
  | .issueSpikes => true
  | .issueMovers => true
  | .issueCredit _ => true
  | _ => false

/-- Recognizes a settle event of any of the four fan-out provider calls. -/
def isFanSettleEvent : DashEvent → Bool
  | .settleSubs => true
  | .settleSpikes => true
  | .settleMovers => true
  | .settleCredit => true
  | _ => false

/-- Recognizes an issue event of the three parallel calls. -/
def isParIssueEvent : DashEvent → Bool
  | .issueSubs => true
  | .issueSpikes => true
  | .issueMovers => true
  | _ => false

/-- Recognizes a settle event of the three parallel calls. -/
def isParSettleEvent : DashEvent → Bool
  | .settleSubs => true
  | .settleSpikes => true
  | .settleMovers => true
  | _ => false

/-- Recognizes the credit-guardrails issue event. -/
def isIssueCreditEvent : DashEvent → Bool
  | .issueCredit _ => true
  | _ => false

/-- Every p-event of the trace occurs strictly before every q-event. -/
def eventsPrecede (p q : DashEvent → Bool) (l : List DashEvent) : Prop :=
  ∀ i j : Fin l.length, p (l.get i) = true → q (l.get j) = true → (i : ℕ) < (j : ℕ)

lemma codePosSum_nonneg (now : ℚ) (tx : List TxRow) : 0 ≤ codePosSum now tx := by
  apply List.sum_nonneg
  intro x hx
  simp only [codePosSum, List.mem_map, List.mem_filter] at hx
  obtain ⟨t, ⟨-, ht⟩, rfl⟩ := hx
  have := of_decide_eq_true (Bool.and_elim_right ht)
  exact le_of_lt this

lemma codeNegSum_nonpos (now : ℚ) (tx : List TxRow) : codeNegSum now tx ≤ 0 := by
  have h : ∀ x ∈ (tx.filter (fun t => inWindow90 now t && decide (t.amount < 0))).map
      (fun t => t.amount), x ≤ 0 := by
    intro x hx
    simp only [List.mem_map, List.mem_filter] at hx
    obtain ⟨t, ⟨-, ht⟩, rfl⟩ := hx
    exact le_of_lt (of_decide_eq_true (Bool.and_elim_right ht))
  calc codeNegSum now tx ≤ ((tx.filter (fun t => inWindow90 now t && decide (t.amount < 0))).map
      (fun t => t.amount)).length • (0 : ℚ) := List.sum_le_card_nsmul _ 0 h
    _ = 0 := by simp

lemma jsRound_nonneg {q : ℚ} (h : 0 ≤ q) : 0 ≤ jsRound q := by
  rw [jsRound, Int.le_floor]
  push_cast
  linarith

lemma jsRound_eq_roundHalfAwayFromZero {q : ℚ} (h : 0 ≤ q) :
    jsRound q = roundHalfAwayFromZero q := by
  rw [jsRound, roundHalfAwayFromZero, if_pos h]

lemma abs_jsRound_of_nonpos {q : ℚ} (h : q ≤ 0) : |jsRound q| = ⌈-q - 1/2⌉ := by
  have hfloor : ⌊q + 1/2⌋ = -⌈-q - 1/2⌉ := by
    have : (⌈-q - 1/2⌉ : ℤ) = ⌈-(q + 1/2)⌉ := by ring_nf
    rw [this, Int.ceil_neg, neg_neg]
  have hnn : 0 ≤ ⌈-q - 1/2⌉ := by
    have h1 : (-1 : ℚ) < -q - 1/2 := by linarith
    have := Int.lt_ceil.mpr (by exact_mod_cast h1 : ((-1 : ℤ) : ℚ) < -q - 1/2)
    omega
  rw [jsRound, hfloor, abs_neg, abs_of_nonneg hnn]

lemma filter_and_eq_nil {tx : List TxRow} {now : ℚ} (p : TxRow → Bool)
    (h : tx.filter (inWindow90 now) = []) :
    tx.filter (fun t => inWindow90 now t && p t) = [] := by
  rw [List.filter_eq_nil_iff] at h ⊢
  intro t ht hw
  exact h t ht (Bool.and_elim_left hw)

/-- C4 (counterexample): on the single transaction with amount -9/2 dated
today, the code computes baseline spend 1 (Math.round rounds the half
toward positive infinity before the absolute value is taken) while the
claim formula round-half-away-from-zero of abs(-9/2)/3 gives 2. -/
theorem C4_counterexample :
    ¬ (monthlyBaselineSpendArray 0 [⟨0, -(9/2)⟩] =
        claimMonthlyBaseline 0 [⟨0, -(9/2)⟩]) := by
  have h1 : monthlyBaselineSpendArray 0 [⟨0, -(9/2)⟩] = 1 := by
    rw [monthlyBaselineSpendArray, codeNegSum]
    simp only [List.filter_cons, List.filter_nil, inWindow90]
    norm_num [jsRound]
  have h2 : claimMonthlyBaseline 0 [⟨0, -(9/2)⟩] = 2 := by
    rw [claimMonthlyBaseline, claimNegSum]
    simp only [List.filter_cons, List.filter_nil]
    norm_num
    rw [show |(9 : ℚ)/2| = 9/2 from abs_of_nonneg (by norm_num)]
    norm_num [roundHalfAwayFromZero]
  omega

/-- C4 (amended): monthlyIncome equals round-half-away-from-zero of the
sum of positive amounts dated on or after now minus 90 days (the window
has no upper bound) divided by 3; monthlyBaselineSpend equals
round-half-TOWARD-zero of abs of the corresponding negative sum divided
by 3 (the code takes Math.abs after Math.round, and Math.round sends
negative halves toward zero); both are 0 when no transaction is in the
window and both are always non-negative integers. -/
theorem C4_amended (now : ℚ) (tx : List TxRow) :
    monthlyIncomeArray now tx = roundHalfAwayFromZero (codePosSum now tx / 3)
    ∧ monthlyBaselineSpendArray now tx
        = roundHalfTowardZeroNonneg (|codeNegSum now tx| / 3)
    ∧ 0 ≤ monthlyIncomeArray now tx
    ∧ 0 ≤ monthlyBaselineSpendArray now tx
    ∧ (tx.filter (inWindow90 now) = [] →
        monthlyIncomeArray now tx = 0 ∧ monthlyBaselineSpendArray now tx = 0) := by
  have hpos : 0 ≤ codePosSum now tx := codePosSum_nonneg now tx
  have hneg : codeNegSum now tx ≤ 0 := codeNegSum_nonpos now tx
  refine ⟨?_, ?_, ?_, ?_, ?_⟩
  · rw [monthlyIncomeArray, jsRound_eq_roundHalfAwayFromZero (by positivity)]
  · rw [monthlyBaselineSpendArray,
      abs_jsRound_of_nonpos (by linarith : codeNegSum now tx / 3 ≤ 0),
      roundHalfTowardZeroNonneg, abs_of_nonpos hneg]
    congr 1
    ring
  · exact jsRound_nonneg (by positivity)
  · exact abs_nonneg _
  · intro h
    have h1 : codePosSum now tx = 0 := by
      rw [codePosSum, filter_and_eq_nil _ h]
      rfl
    have h2 : codeNegSum now tx = 0 := by
      rw [codeNegSum, filter_and_eq_nil _ h]
      rfl
    constructor
    · rw [monthlyIncomeArray, h1]
      norm_num [jsRound]
    · rw [monthlyBaselineSpendArray, h2]
      norm_num [jsRound]

/-- C4 (witness for the amended theorem): on the empty list both metrics
are zero. -/
theorem C4_amended_witness :
    monthlyIncomeArray 0 [] = 0 ∧ monthlyBaselineSpendArray 0 [] = 0 :=
  (C4_amended 0 []).2.2.2.2 rfl

/-- C3: if the simulateCredit call is rejected the whole operation answers
the fixed 500 error and the explainCredit call is never issued; if
simulateCredit succeeds with a well-formed body and only explainCredit is
rejected, the operation still succeeds, answering the simulation and
guardrails from the simulation body with explanation null, the explainer
having been invoked with the figures derived from the simulation. -/
theorem C3_chain (balance apr : ℚ) (simO : SimOutcome) (explainO : POutcome String) :
    (simO = .rejected →
      simulateAndExplainCredit balance apr simO explainO =
        { response := .serverError "Credit simulation failed", explainCalled := none })
    ∧ (∀ sim g, simO = .fulfilled { simulation := some sim, guardrails := some g } →
        explainO = .rejected →
        simulateAndExplainCredit balance apr simO explainO =
          { response := .ok
              { simulation := some sim, guardrails := some g, explanation := .jnull }
            explainCalled := some
              { balance := balance
                apr_annual := apr
                min_months := sim.min_only.months
                min_interest := sim.min_only.total_interest
                plus_months := sim.min_plus_extra.months
                plus_interest := sim.min_plus_extra.total_interest
                utilization := g.utilization } }) := by
  constructor
  · intro h
    subst h
    rfl
  · intro sim g hs he
    subst hs
    subst he
    rfl

/-- C3 (witness): a concrete run of each of the two branches of the
theorem, on a body with plans 24 months / 120 interest and 12 months / 60
interest and utilization 39. -/
theorem C3_chain_witness :
    simulateAndExplainCredit 780 23.99
        (.fulfilled { simulation := some ⟨⟨24, 120⟩, ⟨12, 60⟩⟩
                      guardrails := some ⟨39, []⟩ }) .rejected =
      { response := .ok
          { simulation := some ⟨⟨24, 120⟩, ⟨12, 60⟩⟩
            guardrails := some ⟨39, []⟩
            explanation := .jnull }
        explainCalled := some
          { balance := 780, apr_annual := 23.99, min_months := 24
            min_interest := 120, plus_months := 12, plus_interest := 60
            utilization := 39 } } :=
  (C3_chain 780 23.99
      (.fulfilled { simulation := some ⟨⟨24, 120⟩, ⟨12, 60⟩⟩
                    guardrails := some ⟨39, []⟩ }) .rejected).2
    ⟨⟨24, 120⟩, ⟨12, 60⟩⟩ ⟨39, []⟩ rfl rfl

/-- C8: every run of the insurance assessment answers HTTP success, and
any upstream problem (rejected call, null body, absent or non-array
suggestions field) answers exactly the empty suggestion list. -/
theorem C8_insurance (o : POutcome (List Suggestion)) :
    (∃ l, assessInsurance o = .ok l)
    ∧ (upstreamProblem o = true → assessInsurance o = .ok []) := by
  cases o with
  | rejected => exact ⟨⟨[], rfl⟩, fun _ => rfl⟩
  | fulfilled f =>
    cases f with
    | throws => exact ⟨⟨[], rfl⟩, fun _ => rfl⟩
    | missing => exact ⟨⟨[], rfl⟩, fun _ => rfl⟩
    | val l => exact ⟨⟨l, rfl⟩, fun h => by simp [upstreamProblem] at h⟩

/-- C8 (witness): a rejected nudge call answers the empty list. -/
theorem C8_insurance_witness : assessInsurance .rejected = .ok [] :=
  (C8_insurance .rejected).2 rfl

/-- C9 (counterexample): a run of POST /budgets/untouchable with percent
absent from the request body does reach the forecast provider: the call is
issued with the untouchable_pct field dropped from the payload, so no
validation failure precedes the provider call. -/
theorem C9_counterexample :
    (forecastUntouchable 0 [] none (.ok []) none none
        (.ok { suggested_pct := 3/10, series := [] })).forecastCalled.map
      (fun p => p.untouchable_pct) = some none := rfl

/-- C9 (amended): a request missing the percent input is not rejected by
any validation: whenever the ledger read succeeds the handler always calls
the forecast provider, with the untouchable_pct field absent from the
payload (JSON drops the undefined field). -/
theorem C9_amended (now : ℚ) (fixture : List Tx) (budget0 : Option ℚ)
    (txns : List Tx) (ss : Option ℚ) (forecastO : Except Unit ForecastData) :
    ∃ p, (forecastUntouchable now fixture budget0 (.ok txns) none ss
            forecastO).forecastCalled = some p
      ∧ p.untouchable_pct = none := by
  cases forecastO with
  | error e => exact ⟨_, rfl, rfl⟩
  | ok d =>
    cases budget0 with
    | none => exact ⟨_, rfl, rfl⟩
    | some b => exact ⟨_, rfl, rfl⟩

/-- C10: when the forecast provider call fails, the budget upsert is never
reached and the persisted untouchablePct is unchanged; in general the
upsert is only ever reached after a fulfilled forecast call. -/
theorem C10_write_after_success (now : ℚ) (fixture : List Tx) (budget0 : Option ℚ)
    (ledger : Except Unit (List Tx)) (percent ss : Option ℚ) :
    ((forecastUntouchable now fixture budget0 ledger percent ss
        (.error ())).upsertReached = false
      ∧ (forecastUntouchable now fixture budget0 ledger percent ss
          (.error ())).budget = budget0)
    ∧ (∀ forecastO, (forecastUntouchable now fixture budget0 ledger percent ss
          forecastO).upsertReached = true → ∃ d, forecastO = .ok d) := by
  constructor
  · cases ledger with
    | error e => exact ⟨rfl, rfl⟩
    | ok txns => exact ⟨rfl, rfl⟩
  · intro forecastO h
    cases forecastO with
    | ok d => exact ⟨d, rfl⟩
    | error e =>
      exfalso
      cases ledger with
      | error e2 => simp [forecastUntouchable] at h
      | ok txns => simp [forecastUntouchable] at h

lemma eventsPrecede_append {p q : DashEvent → Bool} {l1 l2 : List DashEvent}
    (hq : ∀ e ∈ l1, q e = false) (hp : ∀ e ∈ l2, p e = false) :
    eventsPrecede p q (l1 ++ l2) := by
  intro i j hpi hqj
  rw [List.get_eq_getElem] at hpi hqj
  have hi : (i : ℕ) < l1.length := by
    by_contra hcon
    push_neg at hcon
    rw [List.getElem_append_right hcon] at hpi
    exact absurd hpi (by simp [hp _ (List.getElem_mem _)])
  have hj : l1.length ≤ (j : ℕ) := by
    by_contra hcon
    push_neg at hcon
    rw [List.getElem_append_left hcon] at hqj
    exact absurd hqj (by simp [hq _ (List.getElem_mem _)])
  omega

lemma intact_reduce {α : Type} {o : POutcome (List α)} (h : intact o = true) :
    ∃ l, reduceListBranch o = .ok (some l) := by
  cases o with
  | rejected => exact ⟨[], rfl⟩
  | fulfilled f =>
    cases f with
    | throws => simp [intact] at h
    | missing => simp [intact] at h
    | val v => exact ⟨v, rfl⟩

lemma reduceListBranch_error_iff {α : Type} (o : POutcome (List α)) :
    reduceListBranch o = .error () ↔ o = .fulfilled .throws := by
  cases o with
  | rejected => simp [reduceListBranch]
  | fulfilled f => cases f <;> simp [reduceListBranch]

lemma creditBranch_fst_some (acctRes : Except Unit (Option Account))
    (creditO : POutcome Guardrails) (h : creditO ≠ .fulfilled .missing) :
    ∃ g, (creditBranch acctRes creditO).1 = some g := by
  cases acctRes with
  | error e => exact ⟨fallbackGuardrails, rfl⟩
  | ok acct =>
    cases creditO with
    | rejected => exact ⟨fallbackGuardrails, rfl⟩
    | fulfilled f =>
      cases f with
      | throws => exact ⟨fallbackGuardrails, rfl⟩
      | missing => exact absurd rfl h
      | val g => exact ⟨g, rfl⟩

lemma creditBranch_fst_rejected (acctRes : Except Unit (Option Account)) :
    (creditBranch acctRes .rejected).1 = some fallbackGuardrails := by
  cases acctRes <;> rfl

lemma creditBranch_snd (acctRes : Except Unit (Option Account))
    (creditO : POutcome Guardrails) :
    (creditBranch acctRes creditO).2 = [DashEvent.readCreditAccount]
    ∨ ∃ p, (creditBranch acctRes creditO).2 =
        [DashEvent.readCreditAccount, DashEvent.issueCredit p, DashEvent.settleCredit] := by
  cases acctRes with
  | error e => exact Or.inl rfl
  | ok acct =>
    refine Or.inr ⟨mkCreditPayload acct, ?_⟩
    cases creditO with
    | rejected => rfl
    | fulfilled f => cases f <;> rfl

lemma narrativeBranch_fst_rejected (income baseline : ℤ) (credit : Option Guardrails)
    (subs : Option (List Subscription)) (spikes : Option (List Spike)) :
    (narrativeBranch income baseline credit subs spikes .rejected).1 = "Stable week." := by
  rcases hM : buildMetrics income baseline credit subs spikes with e | m <;>
    simp [narrativeBranch, hM]

lemma narrativeBranch_snd (income baseline : ℤ) (credit : Option Guardrails)
    (subs : Option (List Subscription)) (spikes : Option (List Spike))
    (narrO : POutcome String) :
    (narrativeBranch income baseline credit subs spikes narrO).2 = []
    ∨ ∃ m, (narrativeBranch income baseline credit subs spikes narrO).2 =
          [DashEvent.issueNarrative m, DashEvent.settleNarrative]
        ∧ buildMetrics income baseline credit subs spikes = .ok m := by
  rcases hM : buildMetrics income baseline credit subs spikes with e | m
  · left
    simp [narrativeBranch, hM]
  · refine Or.inr ⟨m, ?_, rfl⟩
    cases narrO with
    | rejected => simp [narrativeBranch, hM]
    | fulfilled f => cases f <;> simp [narrativeBranch, hM]

lemma getDashboardSummary_ok (now : ℚ) (fixture txns : List Tx)
    {subsO : POutcome (List Subscription)} {spikesO : POutcome (List Spike)}
    {moversO : POutcome (List Mover)} (acctRes : Except Unit (Option Account))
    (creditO : POutcome Guardrails) (narrO : POutcome String) (ord : List Branch3)
    {su : Option (List Subscription)} {sp : Option (List Spike)}
    {mv : Option (List Mover)}
    (hs : reduceListBranch subsO = .ok su) (hp : reduceListBranch spikesO = .ok sp)
    (hm : reduceListBranch moversO = .ok mv) :
    getDashboardSummary now fixture (.ok txns) subsO spikesO moversO acctRes
        creditO narrO ord =
      { response := .ok
          { income := monthlyIncomeArray now (dashRows fixture txns)
            baseline := monthlyBaselineSpendArray now (dashRows fixture txns)
            credit := (creditBranch acctRes creditO).1
            subscriptions := su
            spikes := sp
            movers := mv
            weekly_narrative := (narrativeBranch
              (monthlyIncomeArray now (dashRows fixture txns))
              (monthlyBaselineSpendArray now (dashRows fixture txns))
              (creditBranch acctRes creditO).1 su sp narrO).1 }
        trace := fanoutEvents ord ++ (creditBranch acctRes creditO).2
          ++ (narrativeBranch
              (monthlyIncomeArray now (dashRows fixture txns))
              (monthlyBaselineSpendArray now (dashRows fixture txns))
              (creditBranch acctRes creditO).1 su sp narrO).2 } := by
  simp only [getDashboardSummary, hs, hp, hm]

/-- C1 (counterexample): with a successful ledger read and every provider
reachable, a 2xx subscriptions response whose body lacks the subscriptions
field leaves the variable undefined, and JSON serialization drops the key:
the composite response is a 200 with only six keys. -/
theorem C1_counterexample :
    (getDashboardSummary 0 [] (.ok []) (.fulfilled .missing) (.fulfilled (.val []))
        (.fulfilled (.val [])) (.ok none) (.fulfilled (.val ⟨39, []⟩))
        (.fulfilled (.val "ok")) [.subs, .spikes, .movers]).response.allSevenKeys
      = false := by
  rfl

/-- C1 (amended): whenever the ledger read succeeds, each of the
subscriptions, spikes and movers calls either fails outright or returns a
2xx body carrying its expected field, and the credit call does not return
a 2xx body missing its guardrails field, the composite response is a 200
containing exactly the seven documented keys - regardless of the credit
account lookup, of credit rejections or null bodies, and of any narrative
outcome whatsoever. -/
theorem C1_amended (now : ℚ) (fixture txns : List Tx)
    (subsO : POutcome (List Subscription)) (spikesO : POutcome (List Spike))
    (moversO : POutcome (List Mover)) (acctRes : Except Unit (Option Account))
    (creditO : POutcome Guardrails) (narrO : POutcome String) (ord : List Branch3)
    (h1 : intact subsO = true) (h2 : intact spikesO = true)
    (h3 : intact moversO = true) (h4 : creditO ≠ .fulfilled .missing) :
    ∃ b, (getDashboardSummary now fixture (.ok txns) subsO spikesO moversO
            acctRes creditO narrO ord).response = .ok b
      ∧ b.presentKeys = sevenKeys := by
  obtain ⟨su, hs⟩ := intact_reduce h1
  obtain ⟨sp, hp⟩ := intact_reduce h2
  obtain ⟨mv, hmv⟩ := intact_reduce h3
  obtain ⟨g, hg⟩ := creditBranch_fst_some acctRes creditO h4
  rw [getDashboardSummary_ok now fixture txns acctRes creditO narrO ord hs hp hmv]
  exact ⟨_, rfl, by simp [SummaryBody.presentKeys, hg, sevenKeys]⟩

/-- C1 (witness for the amended theorem): all five providers rejected
still produces a 200 with all seven keys. -/
theorem C1_amended_witness :
    ∃ b, (getDashboardSummary 0 [] (.ok []) .rejected .rejected .rejected
            (.ok none) .rejected .rejected [.subs, .spikes, .movers]).response = .ok b
      ∧ b.presentKeys = sevenKeys :=
  C1_amended 0 [] [] .rejected .rejected .rejected (.ok none) .rejected .rejected
    [.subs, .spikes, .movers] rfl rfl rfl nofun

/-- C2: for every subset of the five provider calls forced to fail (the
others settling cleanly) with a successful ledger read, the route answers
HTTP success and every failed branch reduces to exactly its documented
fallback: empty lists for subscriptions, spikes and movers, the fixed
guardrails object for credit, and the fixed string for the narrative. -/
theorem C2_fallbacks (now : ℚ) (fixture txns : List Tx)
    (subsO : POutcome (List Subscription)) (spikesO : POutcome (List Spike))
    (moversO : POutcome (List Mover)) (acctRes : Except Unit (Option Account))
    (creditO : POutcome Guardrails) (narrO : POutcome String) (ord : List Branch3)
    (h1 : intact subsO = true) (h2 : intact spikesO = true)
    (h3 : intact moversO = true) (h4 : intact creditO = true)
    (h5 : intact narrO = true) :
    ∃ b, (getDashboardSummary now fixture (.ok txns) subsO spikesO moversO
            acctRes creditO narrO ord).response = .ok b
      ∧ (subsO = .rejected → b.subscriptions = some [])
      ∧ (spikesO = .rejected → b.spikes = some [])
      ∧ (moversO = .rejected → b.movers = some [])
      ∧ (creditO = .rejected → b.credit = some fallbackGuardrails)
      ∧ (narrO = .rejected → b.weekly_narrative = "Stable week.") := by
  obtain ⟨su, hs⟩ := intact_reduce h1
  obtain ⟨sp, hp⟩ := intact_reduce h2
  obtain ⟨mv, hmv⟩ := intact_reduce h3
  rw [getDashboardSummary_ok now fixture txns acctRes creditO narrO ord hs hp hmv]
  refine ⟨_, rfl, ?_, ?_, ?_, ?_, ?_⟩
  · rintro rfl
    have h := hs.symm
    simp only [reduceListBranch, Except.ok.injEq] at h
    show some su = some []
    rw [h]
  · rintro rfl
    have h := hp.symm
    simp only [reduceListBranch, Except.ok.injEq] at h
    show some sp = some []
    rw [h]
  · rintro rfl
    have h := hmv.symm
    simp only [reduceListBranch, Except.ok.injEq] at h
    show some mv = some []
    rw [h]
  · rintro rfl
    exact creditBranch_fst_rejected acctRes
  · rintro rfl
    exact narrativeBranch_fst_rejected _ _ _ _ _

/-- C2 (witness): the all-fail subset - every provider rejected - still
yields a 200 whose branches are exactly the documented fallbacks. -/
theorem C2_fallbacks_witness :
    ∃ b, (getDashboardSummary 0 [] (.ok []) .rejected .rejected .rejected
            (.error ()) .rejected .rejected [.spikes, .subs, .movers]).response = .ok b
      ∧ (POutcome.rejected = (.rejected : POutcome (List Subscription)) →
          b.subscriptions = some [])
      ∧ (POutcome.rejected = (.rejected : POutcome (List Spike)) → b.spikes = some [])
      ∧ (POutcome.rejected = (.rejected : POutcome (List Mover)) → b.movers = some [])
      ∧ (POutcome.rejected = (.rejected : POutcome Guardrails) →
          b.credit = some fallbackGuardrails)
      ∧ (POutcome.rejected = (.rejected : POutcome String) →
          b.weekly_narrative = "Stable week.") :=
  C2_fallbacks 0 [] [] .rejected .rejected .rejected (.error ()) .rejected .rejected
    [.spikes, .subs, .movers] rfl rfl rfl rfl rfl

lemma dashResponse_serverError_iff (now : ℚ) (fixture txns : List Tx)
    (subsO : POutcome (List Subscription)) (spikesO : POutcome (List Spike))
    (moversO : POutcome (List Mover)) (acctRes : Except Unit (Option Account))
    (creditO : POutcome Guardrails) (narrO : POutcome String) (ord : List Branch3) :
    (getDashboardSummary now fixture (.ok txns) subsO spikesO moversO acctRes
        creditO narrO ord).response.isServerError = true
    ↔ reduceListBranch subsO = .error () ∨ reduceListBranch spikesO = .error ()
        ∨ reduceListBranch moversO = .error () := by
  rcases hsE : reduceListBranch subsO with e1 | su <;>
    rcases hpE : reduceListBranch spikesO with e2 | sp <;>
      rcases hmE : reduceListBranch moversO with e3 | mv <;>
        simp only [getDashboardSummary, hsE, hpE, hmE,
          SummaryResult.isServerError] <;>
        simp

/-- C5 (counterexample): with the ledger read succeeding, a 2xx
subscriptions response whose body is null makes the field read throw past
the branch, and the route answers the 500 summary_failed payload: ledger
failure is not the sole source of a failed composite. -/
theorem C5_counterexample :
    (getDashboardSummary 0 [] (.ok []) (.fulfilled .throws) .rejected .rejected
        (.ok none) .rejected .rejected [.subs, .spikes, .movers]).response
      = .serverError "summary_failed" := by
  rfl

/-- C5 (amended): the composite response is the 500 failure exactly when
the ledger read fails or one of the three parallel 2xx bodies is null (so
its field read throws); every provider rejection - timeout, connection
failure, non-2xx - and every other malformation is absorbed into its
branch fallback and never surfaces as an HTTP error. -/
theorem C5_amended (now : ℚ) (fixture : List Tx) (ledger : Except Unit (List Tx))
    (subsO : POutcome (List Subscription)) (spikesO : POutcome (List Spike))
    (moversO : POutcome (List Mover)) (acctRes : Except Unit (Option Account))
    (creditO : POutcome Guardrails) (narrO : POutcome String) (ord : List Branch3) :
    (getDashboardSummary now fixture ledger subsO spikesO moversO acctRes
        creditO narrO ord).response.isServerError = true
    ↔ ledger = .error () ∨ subsO = .fulfilled .throws
        ∨ spikesO = .fulfilled .throws ∨ moversO = .fulfilled .throws := by
  cases ledger with
  | error e =>
    cases e
    simp [getDashboardSummary, SummaryResult.isServerError]
  | ok txns =>
    rw [dashResponse_serverError_iff, reduceListBranch_error_iff,
      reduceListBranch_error_iff, reduceListBranch_error_iff]
    simp

/-- C5 (witness for the amended theorem): a failed ledger read yields the
500 failure. -/
theorem C5_amended_witness :
    (getDashboardSummary 0 [] (.error ()) .rejected .rejected .rejected
        (.ok none) .rejected .rejected []).response.isServerError = true :=
  (C5_amended 0 [] (.error ()) .rejected .rejected .rejected
      (.ok none) .rejected .rejected []).mpr (Or.inl rfl)

lemma mem_fanout_no_narr {e : DashEvent} {ord : List Branch3}
    (he : e ∈ fanoutEvents ord) : isIssueNarrativeEvent e = false := by
  rw [fanoutEvents] at he
  rcases List.mem_append.mp he with h | h
  · rcases (by simpa using h :
      e = DashEvent.issueSubs ∨ e = DashEvent.issueSpikes ∨ e = DashEvent.issueMovers)
      with rfl | rfl | rfl <;> rfl
  · obtain ⟨b, hb, rfl⟩ := List.mem_map.mp h
    cases b <;> rfl

lemma dashTrace_decomp (now : ℚ) (fixture txns : List Tx)
    (subsO : POutcome (List Subscription)) (spikesO : POutcome (List Spike))
    (moversO : POutcome (List Mover)) (acctRes : Except Unit (Option Account))
    (creditO : POutcome Guardrails) (narrO : POutcome String) (ord : List Branch3) :
    ∃ X, (getDashboardSummary now fixture (.ok txns) subsO spikesO moversO acctRes
            creditO narrO ord).trace = fanoutEvents ord ++ X
      ∧ ∀ e ∈ X, e = DashEvent.readCreditAccount
          ∨ (∃ p, e = DashEvent.issueCredit p) ∨ e = DashEvent.settleCredit
          ∨ (∃ m2, e = DashEvent.issueNarrative m2) ∨ e = DashEvent.settleNarrative := by
  rcases hsE : reduceListBranch subsO with e1 | su <;>
    rcases hpE : reduceListBranch spikesO with e2 | sp <;>
      rcases hmE : reduceListBranch moversO with e3 | mv
  all_goals try {
    refine ⟨[], ?_, by simp⟩
    simp only [getDashboardSummary, hsE, hpE, hmE, List.append_nil]
  }
  rw [getDashboardSummary_ok now fixture txns acctRes creditO narrO ord hsE hpE hmE]
  rw [List.append_assoc]
  refine ⟨_, rfl, ?_⟩
  intro e he
  rcases List.mem_append.mp he with h | h
  · rcases creditBranch_snd acctRes creditO with hC | ⟨p, hC⟩ <;> rw [hC] at h
    · rcases (by simpa using h : e = DashEvent.readCreditAccount) with rfl
      exact Or.inl rfl
    · rcases (by simpa using h : e = DashEvent.readCreditAccount
          ∨ e = DashEvent.issueCredit p ∨ e = DashEvent.settleCredit)
        with rfl | rfl | rfl
      · exact Or.inl rfl
      · exact Or.inr (Or.inl ⟨p, rfl⟩)
      · exact Or.inr (Or.inr (Or.inl rfl))
  · rcases narrativeBranch_snd _ _ _ _ _ narrO with hN | ⟨m2, hN, -⟩ <;> rw [hN] at h
    · simp at h
    · rcases (by simpa using h : e = DashEvent.issueNarrative m2
          ∨ e = DashEvent.settleNarrative) with rfl | rfl
      · exact Or.inr (Or.inr (Or.inr (Or.inl ⟨m2, rfl⟩)))
      · exact Or.inr (Or.inr (Or.inr (Or.inr rfl)))

/-- C6: whenever the dashboard run issues the narrative call, the
subscriptions, spikes and movers branches have all settled earlier in the
trace (their settle events precede every narrative-issue event, as does
the credit branch settlement), and the metrics passed to the call are
exactly the already-reduced values: the reduced subscription list length,
the top category of the reduced spike list (null when there are none) and
the utilization of the reduced credit object. -/
theorem C6_narrative_after_settle (now : ℚ) (fixture txns : List Tx)
    (subsO : POutcome (List Subscription)) (spikesO : POutcome (List Spike))
    (moversO : POutcome (List Mover)) (acctRes : Except Unit (Option Account))
    (creditO : POutcome Guardrails) (narrO : POutcome String) (ord : List Branch3)
    (hord : ord.Perm [Branch3.subs, Branch3.spikes, Branch3.movers])
    (m : NarrativeMetrics)
    (hm : DashEvent.issueNarrative m ∈
      (getDashboardSummary now fixture (.ok txns) subsO spikesO moversO acctRes
        creditO narrO ord).trace) :
    (DashEvent.settleSubs ∈ (getDashboardSummary now fixture (.ok txns) subsO
        spikesO moversO acctRes creditO narrO ord).trace
      ∧ DashEvent.settleSpikes ∈ (getDashboardSummary now fixture (.ok txns) subsO
          spikesO moversO acctRes creditO narrO ord).trace
      ∧ DashEvent.settleMovers ∈ (getDashboardSummary now fixture (.ok txns) subsO
          spikesO moversO acctRes creditO narrO ord).trace)
    ∧ eventsPrecede isUpstreamSettleEvent isIssueNarrativeEvent
        (getDashboardSummary now fixture (.ok txns) subsO spikesO moversO acctRes
          creditO narrO ord).trace
    ∧ ∃ su sp g, reduceListBranch subsO = .ok (some su)
        ∧ reduceListBranch spikesO = .ok (some sp)
        ∧ (creditBranch acctRes creditO).1 = some g
        ∧ m = { income := monthlyIncomeArray now (dashRows fixture txns)
                baseline := monthlyBaselineSpendArray now (dashRows fixture txns)
                credit_utilization := g.utilization
                subscriptions_count := su.length
                top_spike_category := topSpikeCategory sp
                untouchable_pct := 0.2 } := by
  rcases hsE : reduceListBranch subsO with e1 | su <;>
    rcases hpE : reduceListBranch spikesO with e2 | sp <;>
      rcases hmE : reduceListBranch moversO with e3 | mv
  all_goals try {
    exfalso
    simp only [getDashboardSummary, hsE, hpE, hmE] at hm
    have hfalse := mem_fanout_no_narr hm
    simp [isIssueNarrativeEvent] at hfalse
  }
  rw [getDashboardSummary_ok now fixture txns acctRes creditO narrO ord hsE hpE hmE]
    at hm ⊢
  rcases narrativeBranch_snd (monthlyIncomeArray now (dashRows fixture txns))
      (monthlyBaselineSpendArray now (dashRows fixture txns))
      (creditBranch acctRes creditO).1 su sp narrO with hN | ⟨m0, hN, hB⟩
  · exfalso
    rw [hN, List.append_nil] at hm
    rcases List.mem_append.mp hm with h | h
    · have hfalse := mem_fanout_no_narr h
      simp [isIssueNarrativeEvent] at hfalse
    · rcases creditBranch_snd acctRes creditO with hC | ⟨p, hC⟩ <;> rw [hC] at h <;>
        simp at h
  · have hm0 : m = m0 := by
      rw [hN] at hm
      rcases List.mem_append.mp hm with h | h
      · exfalso
        rcases List.mem_append.mp h with h2 | h2
        · have hfalse := mem_fanout_no_narr h2
          simp [isIssueNarrativeEvent] at hfalse
        · rcases creditBranch_snd acctRes creditO with hC | ⟨p, hC⟩ <;> rw [hC] at h2 <;>
            simp at h2
      · rcases (by simpa using h : DashEvent.issueNarrative m = DashEvent.issueNarrative m0
            ∨ DashEvent.issueNarrative m = DashEvent.settleNarrative) with h3 | h3
        · exact DashEvent.issueNarrative.inj h3
        · exact absurd h3 (by simp)
    subst hm0
    rcases hC1 : (creditBranch acctRes creditO).1 with - | g
    · rw [hC1] at hB
      simp [buildMetrics] at hB
    rw [hC1] at hB hN
    rcases su with - | su2
    · simp [buildMetrics] at hB
    rcases sp with - | sp2
    · simp [buildMetrics] at hB
    simp only [buildMetrics, Except.ok.injEq] at hB
    refine ⟨⟨?_, ?_, ?_⟩, ?_, su2, sp2, g, rfl, rfl, rfl, hB.symm⟩
    · refine List.mem_append_left _ (List.mem_append_left _ ?_)
      rw [fanoutEvents]
      refine List.mem_append_right _ ?_
      exact List.mem_map_of_mem Branch3.settleEvent
        (show Branch3.subs ∈ ord from (hord.mem_iff).mpr (by simp))
    · refine List.mem_append_left _ (List.mem_append_left _ ?_)
      rw [fanoutEvents]
      refine List.mem_append_right _ ?_
      exact List.mem_map_of_mem Branch3.settleEvent
        (show Branch3.spikes ∈ ord from (hord.mem_iff).mpr (by simp))
    · refine List.mem_append_left _ (List.mem_append_left _ ?_)
      rw [fanoutEvents]
      refine List.mem_append_right _ ?_
      exact List.mem_map_of_mem Branch3.settleEvent
        (show Branch3.movers ∈ ord from (hord.mem_iff).mpr (by simp))
    · apply eventsPrecede_append
      · intro e he
        rcases List.mem_append.mp he with h | h
        · exact mem_fanout_no_narr h
        · rcases creditBranch_snd acctRes creditO with hC | ⟨p, hC⟩ <;> rw [hC] at h
          · rcases (by simpa using h : e = DashEvent.readCreditAccount) with rfl
            rfl
          · rcases (by simpa using h : e = DashEvent.readCreditAccount
                ∨ e = DashEvent.issueCredit p ∨ e = DashEvent.settleCredit)
              with rfl | rfl | rfl <;> rfl
      · intro e he
        rw [hN] at he
        rcases (by simpa using he : e = DashEvent.issueNarrative m
            ∨ e = DashEvent.settleNarrative) with rfl | rfl <;> rfl

/-- C6 (witness): a concrete all-rejected run in which the narrative call
is issued; the theorem places it after every settle event. -/
theorem C6_narrative_after_settle_witness :
    eventsPrecede isUpstreamSettleEvent isIssueNarrativeEvent
      (getDashboardSummary 0 [] (.ok []) .rejected .rejected .rejected (.error ())
        .rejected .rejected [.subs, .spikes, .movers]).trace :=
  (C6_narrative_after_settle 0 [] [] .rejected .rejected .rejected (.error ())
      .rejected .rejected [.subs, .spikes, .movers] (by decide)
      { income := monthlyIncomeArray 0 (dashRows [] [])
        baseline := monthlyBaselineSpendArray 0 (dashRows [] [])
        credit_utilization := fallbackGuardrails.utilization
        subscriptions_count := 0
        top_spike_category := none
        untouchable_pct := 0.2 }
      (by simp [getDashboardSummary, reduceListBranch, creditBranch, narrativeBranch,
        buildMetrics, fanoutEvents, topSpikeCategory])).2.1

/-- C7 (counterexample): in the source the credit-guardrails call is only
issued after the three Promise.allSettled branches have settled, so on a
concrete run the trace has a settle event (index 3) before the
credit-issue event (index 7): the four fan-out calls are NOT all issued
before any of them settles. -/
theorem C7_counterexample :
    ¬ eventsPrecede isFanIssueEvent isFanSettleEvent
        (getDashboardSummary 0 [] (.ok []) .rejected .rejected .rejected (.ok none)
          .rejected .rejected [.subs, .spikes, .movers]).trace := by
  intro h
  have h73 : (7 : ℕ) < 3 := h ⟨7, by decide⟩ ⟨3, by decide⟩ rfl rfl
  omega

/-- C7 (amended): the three independent calls (subscriptions, spikes,
movers) are all issued before any of them settles and are joined with
wait-for-all semantics - with all three rejected the route still produces
a 200 rather than failing fast - while the credit-guardrails call is
issued only after all three have settled. -/
theorem C7_amended (now : ℚ) (fixture txns : List Tx)
    (subsO : POutcome (List Subscription)) (spikesO : POutcome (List Spike))
    (moversO : POutcome (List Mover)) (acctRes : Except Unit (Option Account))
    (creditO : POutcome Guardrails) (narrO : POutcome String) (ord : List Branch3)
    (hord : ord.Perm [Branch3.subs, Branch3.spikes, Branch3.movers]) :
    (DashEvent.settleSubs ∈ (getDashboardSummary now fixture (.ok txns) subsO
        spikesO moversO acctRes creditO narrO ord).trace
      ∧ DashEvent.settleSpikes ∈ (getDashboardSummary now fixture (.ok txns) subsO
          spikesO moversO acctRes creditO narrO ord).trace
      ∧ DashEvent.settleMovers ∈ (getDashboardSummary now fixture (.ok txns) subsO
          spikesO moversO acctRes creditO narrO ord).trace)
    ∧ eventsPrecede isParIssueEvent isParSettleEvent
        (getDashboardSummary now fixture (.ok txns) subsO spikesO moversO acctRes
          creditO narrO ord).trace
    ∧ eventsPrecede isParSettleEvent isIssueCreditEvent
        (getDashboardSummary now fixture (.ok txns) subsO spikesO moversO acctRes
          creditO narrO ord).trace
    ∧ (intact subsO = true → intact spikesO = true → intact moversO = true →
        ∃ b, (getDashboardSummary now fixture (.ok txns) subsO spikesO moversO
                acctRes creditO narrO ord).response = .ok b) := by
  obtain ⟨X, hX, hXprop⟩ := dashTrace_decomp now fixture txns subsO spikesO moversO
    acctRes creditO narrO ord
  rw [hX]
  refine ⟨⟨?_, ?_, ?_⟩, ?_, ?_, ?_⟩
  · refine List.mem_append_left _ ?_
    rw [fanoutEvents]
    exact List.mem_append_right _ (List.mem_map_of_mem Branch3.settleEvent
      (show Branch3.subs ∈ ord from (hord.mem_iff).mpr (by simp)))
  · refine List.mem_append_left _ ?_
    rw [fanoutEvents]
    exact List.mem_append_right _ (List.mem_map_of_mem Branch3.settleEvent
      (show Branch3.spikes ∈ ord from (hord.mem_iff).mpr (by simp)))
  · refine List.mem_append_left _ ?_
    rw [fanoutEvents]
    exact List.mem_append_right _ (List.mem_map_of_mem Branch3.settleEvent
      (show Branch3.movers ∈ ord from (hord.mem_iff).mpr (by simp)))
  · rw [fanoutEvents, List.append_assoc]
    apply eventsPrecede_append
    · intro e he
      rcases (by simpa using he : e = DashEvent.issueSubs ∨ e = DashEvent.issueSpikes
          ∨ e = DashEvent.issueMovers) with rfl | rfl | rfl <;> rfl
    · intro e he
      rcases List.mem_append.mp he with h | h
      · obtain ⟨b, hb, rfl⟩ := List.mem_map.mp h
        cases b <;> rfl
      · rcases hXprop e h with rfl | ⟨p, rfl⟩ | rfl | ⟨m2, rfl⟩ | rfl <;> rfl
  · apply eventsPrecede_append
    · intro e he
      rw [fanoutEvents] at he
      rcases List.mem_append.mp he with h | h
      · rcases (by simpa using h : e = DashEvent.issueSubs ∨ e = DashEvent.issueSpikes
            ∨ e = DashEvent.issueMovers) with rfl | rfl | rfl <;> rfl
      · obtain ⟨b, hb, rfl⟩ := List.mem_map.mp h
        cases b <;> rfl
    · intro e he
      rcases hXprop e he with rfl | ⟨p, rfl⟩ | rfl | ⟨m2, rfl⟩ | rfl <;> rfl
  · intro h1 h2 h3
    obtain ⟨su, hs⟩ := intact_reduce h1
    obtain ⟨sp, hp⟩ := intact_reduce h2
    obtain ⟨mv, hmv⟩ := intact_reduce h3
    rw [getDashboardSummary_ok now fixture txns acctRes creditO narrO ord hs hp hmv]
    exact ⟨_, rfl⟩

/-- C7 (witness for the amended theorem): on a concrete run the credit
call is issued only after the three parallel settles. -/
theorem C7_amended_witness :
    eventsPrecede isParSettleEvent isIssueCreditEvent
      (getDashboardSummary 1 [] (.ok []) .rejected .rejected .rejected (.ok none)
        .rejected .rejected [.movers, .spikes, .subs]).trace :=
  (C7_amended 1 [] [] .rejected .rejected .rejected (.ok none) .rejected .rejected
      [.movers, .spikes, .subs] (by decide)).2.2.1

/-- C10 (witness): with a fulfilled forecast the upsert is reached, and
the theorem recovers the fulfilled body from that fact. -/
theorem C10_write_after_success_witness :
    ∃ d, (Except.ok { suggested_pct := 3/10, series := [] } :
            Except Unit ForecastData) = .ok d :=
  (C10_write_after_success 0 [] (some (1/5)) (.ok []) (some (3/10)) none).2
    (.ok { suggested_pct := 3/10, series := [] }) (by decide)

end Spendr
